import Mathlib

/-!
# The syntax-tree data model of `constructs.hh`

A shallow embedding of the node hierarchy declared in `src/constructs.hh`, and the
properties the specification states about it.

Conventions of the embedding.

* `std::shared_ptr<T>` is a nullable reference: it is embedded as `Option T`, with
  `none` the null pointer and `some t` a pointer to the node `t`.  The abbreviation
  `shared_ptr` names it; inside the recursive node families the type is written
  `Option _` directly, because a recursive occurrence has to sit under the type
  constructor itself.
* `ptr_list_of<T>` (`std::list<std::shared_ptr<T>>`) is `List (Option T)`; the source
  itself stores null entries in such a list (`func_f_param_t::array_dims`).
* Every C++ struct is one Lean type with the struct's name.  The constructor `T.mk`
  is the C++ constructor that initialises each field from the argument of the same
  name; `T.default_ctor` is the constructor without arguments (declared or implicit),
  which leaves pointers null, strings and lists empty.  The structs `comp_unit_t`,
  `func_def_t` and `func_f_param_t` declare no constructor: a node of theirs is
  default-constructed and its public fields are then assigned, which is written as a
  record update of `T.default_ctor`.
* A base struct `a_t` with derived structs `a_x_t`, `a_y_t` is the sum of its derived
  structs, one injection per derived struct (the implicit pointer upcast), plus `base`
  for an object of the base struct itself, which the source does not make abstract.
* `int32_t` values are integers in `[-2^31, 2^31)`; conversion of an integer to
  `int32_t` is reduction modulo `2^32` into that range.  `number_literal_t.ctor` is
  the constructor `number_literal_t(int32_t value)` with the conversion of its
  argument; the constructor `number_literal_t(){}` leaves `value` indeterminate and
  is not embedded.
-/

/-! ## Pointers and lists of pointers -/

/-- The type `std::shared_ptr<T>`: `none` is the null pointer. -/
abbrev shared_ptr (T : Type) : Type := Option T

/-- The alias `ptr_list_of<T>`, a `std::list` of shared pointers. -/
abbrev ptr_list_of (T : Type) : Type := List (shared_ptr T)

/-- The nodes a pointer refers to: none for the null pointer. -/
def shared_ptr.targets {T : Type} (p : shared_ptr T) : List T :=
  match p with
  | none => []
  | some t => [t]

/-- The nodes the non-null entries of a pointer list refer to, in order. -/
def ptr_list_of.targets {T : Type} : ptr_list_of T → List T
  | [] => []
  | p :: ps => shared_ptr.targets p ++ ptr_list_of.targets ps

/-! ## Terminal wrappers -/

/-- The enumeration `b_type_t::Type`. -/
inductive b_type_t.Type_ : Type
  | VOID
  | INT
deriving DecidableEq, Repr

/-- The struct `b_type_t`. -/
structure b_type_t where
  type : b_type_t.Type_
deriving DecidableEq, Repr

/-- The struct `ident_t`. -/
structure ident_t where
  name : String
deriving DecidableEq, Repr

/-- The enumeration `operator_t::Type`, in declaration order. -/
inductive operator_t.Type_ : Type
  | POSITIVE
  | NEGATIVE
  | PLUS
  | MINUS
  | MULTIPLY
  | DIVIDE
  | MODULE
  | GREATER
  | LESS
  | GREATER_EQUAL
  | LESS_EQUAL
  | EQUAL
  | NOT_EQUAL
  | LOGICAL_NOT
  | LOGICAL_AND
  | LOGICAL_OR
deriving DecidableEq, Repr

/-- The struct `operator_t`. -/
structure operator_t where
  type : operator_t.Type_
deriving DecidableEq, Repr

/-- The struct `terminal_wrapper` with its derived structs. -/
inductive terminal_wrapper : Type
  | base
  | b_type_t (n : b_type_t)
  | ident_t (n : ident_t)
  | operator_t (n : operator_t)
deriving DecidableEq, Repr

/-! ## Expressions -/

/-- Conversion of an integer to `int32_t`: the representative modulo `2^32` in
`[-2^31, 2^31)`. -/
def int32_t (n : Int) : Int :=
  (n + 2147483648) % 4294967296 - 2147483648

/-- The struct `number_literal_t`; `value` is an `int32_t`. -/
structure number_literal_t where
  value : Int
deriving DecidableEq, Repr

/-- The constructor `number_literal_t(int32_t value)`: the argument is converted to the
parameter type `int32_t` and stored. -/
def number_literal_t.ctor (value : Int) : number_literal_t :=
  { value := int32_t value }

mutual
/-- The struct `expr` with its derived structs. -/
inductive expr : Type
  | base
  | logical_not_expr (n : logical_not_expr)
  | negative_expr (n : negative_expr)
  | binary_expr (n : binary_expr)
  | l_val_t (n : l_val_t)
  | number_literal_t (n : number_literal_t)
  | func_call_t (n : func_call_t)
/-- The struct `logical_not_expr`. -/
inductive logical_not_expr : Type
  | mk (src : Option expr)
/-- The struct `negative_expr`. -/
inductive negative_expr : Type
  | mk (src : Option expr)
/-- The struct `binary_expr`. -/
inductive binary_expr : Type
  | mk (op : operator_t) (src1 : Option expr) (src2 : Option expr)
/-- The struct `l_val_t`. -/
inductive l_val_t : Type
  | mk (ident : String) (exps : List (Option expr))
/-- The struct `func_call_t`. -/
inductive func_call_t : Type
  | mk (ident : String) (params : Option func_r_params_t)
/-- The struct `func_r_params_t`. -/
inductive func_r_params_t : Type
  | mk (exps : List (Option expr))
end

/-- Field `logical_not_expr::src`. -/
def logical_not_expr.src : logical_not_expr → shared_ptr expr
  | .mk src => src

/-- Field `negative_expr::src`. -/
def negative_expr.src : negative_expr → shared_ptr expr
  | .mk src => src

/-- Field `binary_expr::op`. -/
def binary_expr.op : binary_expr → operator_t
  | .mk op _ _ => op

/-- Field `binary_expr::src1`. -/
def binary_expr.src1 : binary_expr → shared_ptr expr
  | .mk _ src1 _ => src1

/-- Field `binary_expr::src2`. -/
def binary_expr.src2 : binary_expr → shared_ptr expr
  | .mk _ _ src2 => src2

/-- Field `l_val_t::ident`. -/
def l_val_t.ident : l_val_t → String
  | .mk ident _ => ident

/-- Field `l_val_t::exps`. -/
def l_val_t.exps : l_val_t → ptr_list_of expr
  | .mk _ exps => exps

/-- Field `func_call_t::ident`. -/
def func_call_t.ident : func_call_t → String
  | .mk ident _ => ident

/-- Field `func_call_t::params`. -/
def func_call_t.params : func_call_t → shared_ptr func_r_params_t
  | .mk _ params => params

/-- Field `func_r_params_t::exps`. -/
def func_r_params_t.exps : func_r_params_t → ptr_list_of expr
  | .mk exps => exps

/-- The constructor `func_r_params_t()`. -/
def func_r_params_t.default_ctor : func_r_params_t :=
  func_r_params_t.mk []

/-! ## Declarations and initialisers -/

/-- The struct `const_init_val_scalar_t`. -/
structure const_init_val_scalar_t where
  const_exp : shared_ptr expr

mutual
/-- The struct `const_init_val_t` with its derived structs. -/
inductive const_init_val_t : Type
  | base
  | const_init_val_scalar_t (n : const_init_val_scalar_t)
  | const_init_val_array_t (n : const_init_val_array_t)
/-- The struct `const_init_val_array_t`. -/
inductive const_init_val_array_t : Type
  | mk (array_elements : List (Option const_init_val_t))
end

/-- Field `const_init_val_array_t::array_elements`. -/
def const_init_val_array_t.array_elements :
    const_init_val_array_t → ptr_list_of const_init_val_t
  | .mk array_elements => array_elements

/-- The struct `const_def_t`. -/
structure const_def_t where
  ident : String
  array_dims : ptr_list_of expr
  const_init_val : shared_ptr const_init_val_t

/-- The struct `const_decl_t`; `mk` is `const_decl_t(b_type, const_defs)`. -/
structure const_decl_t where
  b_type : shared_ptr b_type_t
  const_defs : ptr_list_of const_def_t

/-- The constructor `const_decl_t() {}`. -/
def const_decl_t.default_ctor : const_decl_t :=
  { b_type := none, const_defs := [] }

/-- The struct `init_val_scalar_t`. -/
structure init_val_scalar_t where
  exp : shared_ptr expr

mutual
/-- The struct `init_val_t` with its derived structs. -/
inductive init_val_t : Type
  | base
  | init_val_scalar_t (n : init_val_scalar_t)
  | init_val_array_t (n : init_val_array_t)
/-- The struct `init_val_array_t`. -/
inductive init_val_array_t : Type
  | mk (array_elements : List (Option init_val_t))
end

/-- Field `init_val_array_t::array_elements`. -/
def init_val_array_t.array_elements : init_val_array_t → ptr_list_of init_val_t
  | .mk array_elements => array_elements

/-- The struct `var_def_only_t`. -/
structure var_def_only_t where
  ident : String
  array_dims : ptr_list_of expr

/-- The struct `var_def_init_t`. -/
structure var_def_init_t where
  ident : String
  array_dims : ptr_list_of expr
  init_val : shared_ptr init_val_t

/-- The struct `var_def_t` with its derived structs. -/
inductive var_def_t : Type
  | base
  | var_def_only_t (n : var_def_only_t)
  | var_def_init_t (n : var_def_init_t)

/-- The struct `var_decl_t`. -/
structure var_decl_t where
  b_type : shared_ptr b_type_t
  var_defs : ptr_list_of var_def_t

/-- The struct `decl_const_decl_t`. -/
structure decl_const_decl_t where
  const_decl : shared_ptr const_decl_t

/-- The struct `decl_var_decl_t`. -/
structure decl_var_decl_t where
  var_decl : shared_ptr var_decl_t

/-- The struct `decl_t` with its derived structs. -/
inductive decl_t : Type
  | base
  | decl_const_decl_t (n : decl_const_decl_t)
  | decl_var_decl_t (n : decl_var_decl_t)

/-! ## Statements and blocks -/

/-- The struct `stmt_assign_t`. -/
structure stmt_assign_t where
  l_val : shared_ptr l_val_t
  exp : shared_ptr expr

/-- The struct `stmt_exp_t`. -/
structure stmt_exp_t where
  exp : shared_ptr expr

/-- The struct `stmt_break_t`, which has no field. -/
structure stmt_break_t where
deriving DecidableEq, Repr

/-- The struct `stmt_continue_t`, which has no field. -/
structure stmt_continue_t where
deriving DecidableEq, Repr

/-- The struct `stmt_return_t`. -/
structure stmt_return_t where
  exp : shared_ptr expr

/-- The struct `block_item_decl_t`. -/
structure block_item_decl_t where
  decl : shared_ptr decl_t

mutual
/-- The struct `stmt_t` with its derived structs. -/
inductive stmt_t : Type
  | base
  | stmt_assign_t (n : stmt_assign_t)
  | stmt_exp_t (n : stmt_exp_t)
  | stmt_block_t (n : stmt_block_t)
  | stmt_if_t (n : stmt_if_t)
  | stmt_while_t (n : stmt_while_t)
  | stmt_break_t (n : stmt_break_t)
  | stmt_continue_t (n : stmt_continue_t)
  | stmt_return_t (n : stmt_return_t)
/-- The struct `stmt_block_t`. -/
inductive stmt_block_t : Type
  | mk (block : Option block_t)
/-- The struct `stmt_if_t`. -/
inductive stmt_if_t : Type
  | mk (cond : Option expr) (stmt_if_true : Option stmt_t) (stmt_if_false : Option stmt_t)
/-- The struct `stmt_while_t`. -/
inductive stmt_while_t : Type
  | mk (cond : Option expr) (stmt : Option stmt_t)
/-- The struct `block_t`. -/
inductive block_t : Type
  | mk (children : List (Option block_item_t))
/-- The struct `block_item_t` with its derived structs. -/
inductive block_item_t : Type
  | base
  | block_item_decl_t (n : block_item_decl_t)
  | block_item_stmt_t (n : block_item_stmt_t)
/-- The struct `block_item_stmt_t`. -/
inductive block_item_stmt_t : Type
  | mk (stmt : Option stmt_t)
end

/-- Field `stmt_block_t::block`. -/
def stmt_block_t.block : stmt_block_t → shared_ptr block_t
  | .mk block => block

/-- Field `stmt_if_t::cond`. -/
def stmt_if_t.cond : stmt_if_t → shared_ptr expr
  | .mk cond _ _ => cond

/-- Field `stmt_if_t::stmt_if_true`. -/
def stmt_if_t.stmt_if_true : stmt_if_t → shared_ptr stmt_t
  | .mk _ stmt_if_true _ => stmt_if_true

/-- Field `stmt_if_t::stmt_if_false`. -/
def stmt_if_t.stmt_if_false : stmt_if_t → shared_ptr stmt_t
  | .mk _ _ stmt_if_false => stmt_if_false

/-- Field `stmt_while_t::cond`. -/
def stmt_while_t.cond : stmt_while_t → shared_ptr expr
  | .mk cond _ => cond

/-- Field `stmt_while_t::stmt`. -/
def stmt_while_t.stmt : stmt_while_t → shared_ptr stmt_t
  | .mk _ stmt => stmt

/-- Field `block_t::children`. -/
def block_t.children : block_t → ptr_list_of block_item_t
  | .mk children => children

/-- Field `block_item_stmt_t::stmt`. -/
def block_item_stmt_t.stmt : block_item_stmt_t → shared_ptr stmt_t
  | .mk stmt => stmt

/-! ## Functions and the compilation unit -/

/-- The struct `func_f_param_t`; it declares no constructor, its fields are assigned. -/
structure func_f_param_t where
  b_type : shared_ptr b_type_t
  ident : String
  array_dims : ptr_list_of expr

/-- The implicit constructor `func_f_param_t()`. -/
def func_f_param_t.default_ctor : func_f_param_t :=
  { b_type := none, ident := "", array_dims := [] }

/-- The struct `func_f_params_t`; `mk` is `func_f_params_t(params)`. -/
structure func_f_params_t where
  params : ptr_list_of func_f_param_t

/-- The constructor `func_f_params_t(){}`. -/
def func_f_params_t.default_ctor : func_f_params_t :=
  { params := [] }

/-- The struct `func_def_t`; it declares no constructor, its fields are assigned. -/
structure func_def_t where
  func_type : shared_ptr b_type_t
  ident : String
  params : shared_ptr func_f_params_t
  block : shared_ptr block_t

/-- The implicit constructor `func_def_t()`, the only constructor of the struct. -/
def func_def_t.default_ctor : func_def_t :=
  { func_type := none, ident := "", params := none, block := none }

/-- The struct `comp_unit_item_decl_t`. -/
structure comp_unit_item_decl_t where
  decl : shared_ptr decl_t

/-- The struct `comp_unit_item_func_def_t`. -/
structure comp_unit_item_func_def_t where
  func_def : shared_ptr func_def_t

/-- The struct `comp_unit_item_t` with its derived structs. -/
inductive comp_unit_item_t : Type
  | base
  | comp_unit_item_decl_t (n : comp_unit_item_decl_t)
  | comp_unit_item_func_def_t (n : comp_unit_item_func_def_t)

/-- The struct `comp_unit_t`; it declares no constructor, its field is assigned. -/
structure comp_unit_t where
  children : ptr_list_of comp_unit_item_t

/-- The implicit constructor `comp_unit_t()`. -/
def comp_unit_t.default_ctor : comp_unit_t :=
  { children := [] }

/-- The struct `construct`, the base of every node: the sum of the node families. -/
inductive construct : Type
  | base
  | terminal_wrapper (n : terminal_wrapper)
  | comp_unit_t (n : comp_unit_t)
  | comp_unit_item_t (n : comp_unit_item_t)
  | decl_t (n : decl_t)
  | const_decl_t (n : const_decl_t)
  | const_def_t (n : const_def_t)
  | const_init_val_t (n : const_init_val_t)
  | var_decl_t (n : var_decl_t)
  | var_def_t (n : var_def_t)
  | init_val_t (n : init_val_t)
  | func_def_t (n : func_def_t)
  | func_f_params_t (n : func_f_params_t)
  | func_f_param_t (n : func_f_param_t)
  | block_t (n : block_t)
  | block_item_t (n : block_item_t)
  | stmt_t (n : stmt_t)
  | expr (n : expr)
  | func_r_params_t (n : func_r_params_t)

/-! ## Ownership edges -/

/-- The nodes an expression node owns through its pointer fields. -/
def expr.owned : expr → List construct
  | .base => []
  | .logical_not_expr n => (shared_ptr.targets n.src).map construct.expr
  | .negative_expr n => (shared_ptr.targets n.src).map construct.expr
  | .binary_expr n =>
      (shared_ptr.targets n.src1).map construct.expr
        ++ (shared_ptr.targets n.src2).map construct.expr
  | .l_val_t n => (ptr_list_of.targets n.exps).map construct.expr
  | .number_literal_t _ => []
  | .func_call_t n => (shared_ptr.targets n.params).map construct.func_r_params_t

/-- The nodes a constant initialiser owns. -/
def const_init_val_t.owned : const_init_val_t → List construct
  | .base => []
  | .const_init_val_scalar_t n => (shared_ptr.targets n.const_exp).map construct.expr
  | .const_init_val_array_t n =>
      (ptr_list_of.targets n.array_elements).map construct.const_init_val_t

/-- The nodes an initialiser owns. -/
def init_val_t.owned : init_val_t → List construct
  | .base => []
  | .init_val_scalar_t n => (shared_ptr.targets n.exp).map construct.expr
  | .init_val_array_t n => (ptr_list_of.targets n.array_elements).map construct.init_val_t

/-- The nodes a variable definition owns. -/
def var_def_t.owned : var_def_t → List construct
  | .base => []
  | .var_def_only_t n => (ptr_list_of.targets n.array_dims).map construct.expr
  | .var_def_init_t n =>
      (ptr_list_of.targets n.array_dims).map construct.expr
        ++ (shared_ptr.targets n.init_val).map construct.init_val_t

/-- The nodes a declaration owns. -/
def decl_t.owned : decl_t → List construct
  | .base => []
  | .decl_const_decl_t n => (shared_ptr.targets n.const_decl).map construct.const_decl_t
  | .decl_var_decl_t n => (shared_ptr.targets n.var_decl).map construct.var_decl_t

/-- The nodes a statement owns; the `l_val` of an assignment is an expression node. -/
def stmt_t.owned : stmt_t → List construct
  | .base => []
  | .stmt_assign_t n =>
      (shared_ptr.targets n.l_val).map (fun v => construct.expr (expr.l_val_t v))
        ++ (shared_ptr.targets n.exp).map construct.expr
  | .stmt_exp_t n => (shared_ptr.targets n.exp).map construct.expr
  | .stmt_block_t n => (shared_ptr.targets n.block).map construct.block_t
  | .stmt_if_t n =>
      (shared_ptr.targets n.cond).map construct.expr
        ++ (shared_ptr.targets n.stmt_if_true).map construct.stmt_t
        ++ (shared_ptr.targets n.stmt_if_false).map construct.stmt_t
  | .stmt_while_t n =>
      (shared_ptr.targets n.cond).map construct.expr
        ++ (shared_ptr.targets n.stmt).map construct.stmt_t
  | .stmt_break_t _ => []
  | .stmt_continue_t _ => []
  | .stmt_return_t n => (shared_ptr.targets n.exp).map construct.expr

/-- The nodes a block item owns. -/
def block_item_t.owned : block_item_t → List construct
  | .base => []
  | .block_item_decl_t n => (shared_ptr.targets n.decl).map construct.decl_t
  | .block_item_stmt_t n => (shared_ptr.targets n.stmt).map construct.stmt_t

/-- The nodes a top-level item owns. -/
def comp_unit_item_t.owned : comp_unit_item_t → List construct
  | .base => []
  | .comp_unit_item_decl_t n => (shared_ptr.targets n.decl).map construct.decl_t
  | .comp_unit_item_func_def_t n =>
      (shared_ptr.targets n.func_def).map construct.func_def_t

/-- The ownership edges out of a node: the node behind each non-null `shared_ptr`
field and behind each non-null entry of each `ptr_list_of` field, in declaration
order.  A `b_type_t` pointer refers to a terminal-wrapper node. -/
def construct.owned : construct → List construct
  | .base => []
  | .terminal_wrapper _ => []
  | .comp_unit_t n => (ptr_list_of.targets n.children).map construct.comp_unit_item_t
  | .comp_unit_item_t n => n.owned
  | .decl_t n => n.owned
  | .const_decl_t n =>
      (shared_ptr.targets n.b_type).map
          (fun b => construct.terminal_wrapper (terminal_wrapper.b_type_t b))
        ++ (ptr_list_of.targets n.const_defs).map construct.const_def_t
  | .const_def_t n =>
      (ptr_list_of.targets n.array_dims).map construct.expr
        ++ (shared_ptr.targets n.const_init_val).map construct.const_init_val_t
  | .const_init_val_t n => n.owned
  | .var_decl_t n =>
      (shared_ptr.targets n.b_type).map
          (fun b => construct.terminal_wrapper (terminal_wrapper.b_type_t b))
        ++ (ptr_list_of.targets n.var_defs).map construct.var_def_t
  | .var_def_t n => n.owned
  | .init_val_t n => n.owned
  | .func_def_t n =>
      (shared_ptr.targets n.func_type).map
          (fun b => construct.terminal_wrapper (terminal_wrapper.b_type_t b))
        ++ (shared_ptr.targets n.params).map construct.func_f_params_t
        ++ (shared_ptr.targets n.block).map construct.block_t
  | .func_f_params_t n => (ptr_list_of.targets n.params).map construct.func_f_param_t
  | .func_f_param_t n =>
      (shared_ptr.targets n.b_type).map
          (fun b => construct.terminal_wrapper (terminal_wrapper.b_type_t b))
        ++ (ptr_list_of.targets n.array_dims).map construct.expr
  | .block_t n => (ptr_list_of.targets n.children).map construct.block_item_t
  | .block_item_t n => n.owned
  | .stmt_t n => n.owned
  | .expr n => n.owned
  | .func_r_params_t n => (ptr_list_of.targets n.exps).map construct.expr

/-- The ownership relation: `owns a b` when a pointer held by node `a` refers to node
`b` (a parent-to-child edge). -/
def owns (a b : construct) : Prop :=
  b ∈ a.owned

/-- The node `b` is reachable from `a` along one or more ownership edges. -/
def reachable (a b : construct) : Prop :=
  Relation.TransGen owns a b

/-! ## Trees a builder assembles for concrete inputs -/

/-- The expression node for an integer literal `v`, as `number_literal_t(v)`. -/
def literal (v : Int) : expr :=
  expr.number_literal_t (number_literal_t.ctor v)

/-- The node for a reference to the scalar variable `name`, as `l_val_t(name, {})`. -/
def scalar_ref (name : String) : l_val_t :=
  l_val_t.mk name []

/-- The body of `int main(){return 0;}`: `block_t` built from the one-element list
`[block_item_stmt_t(stmt_return_t(number_literal_t(0)))]`. -/
def main_block : block_t :=
  block_t.mk
    [some (block_item_t.block_item_stmt_t
      (block_item_stmt_t.mk (some (stmt_t.stmt_return_t (stmt_return_t.mk (some (literal 0)))))))]

/-- The function definition of `int main(){return 0;}`: a default-constructed
`func_def_t` whose four fields are then assigned. -/
def main_func_def : func_def_t :=
  { func_def_t.default_ctor with
    func_type := some (b_type_t.mk b_type_t.Type_.INT)
    ident := "main"
    params := some func_f_params_t.default_ctor
    block := some main_block }

/-- The compilation unit of `int main(){return 0;}`. -/
def main_comp_unit : comp_unit_t :=
  { comp_unit_t.default_ctor with
    children :=
      [some (comp_unit_item_t.comp_unit_item_func_def_t
        (comp_unit_item_func_def_t.mk (some main_func_def)))] }

/-- A scalar constant initialiser wrapping the literal `v`. -/
def scalar_init (v : Int) : const_init_val_t :=
  const_init_val_t.const_init_val_scalar_t (const_init_val_scalar_t.mk (some (literal v)))

/-- The definition `a[2] = {1,2}` of `const int a[2] = {1,2};`. -/
def array_a_def : const_def_t :=
  const_def_t.mk "a" [some (literal 2)]
    (some (const_init_val_t.const_init_val_array_t
      (const_init_val_array_t.mk [some (scalar_init 1), some (scalar_init 2)])))

/-- The declaration `const int a[2] = {1,2};`. -/
def array_a_decl : const_decl_t :=
  const_decl_t.mk (some (b_type_t.mk b_type_t.Type_.INT)) [some array_a_def]

/-- A definition whose initialiser fits its dimensions in neither depth nor count:
`a[2] = {1, {2, 3}, 4}`. -/
def misshapen_def : const_def_t :=
  const_def_t.mk "a" [some (literal 2)]
    (some (const_init_val_t.const_init_val_array_t
      (const_init_val_array_t.mk
        [some (scalar_init 1),
         some (const_init_val_t.const_init_val_array_t
           (const_init_val_array_t.mk [some (scalar_init 2), some (scalar_init 3)])),
         some (scalar_init 4)])))

/-- The statement `b = v;`. -/
def assign_b (v : Int) : stmt_t :=
  stmt_t.stmt_assign_t (stmt_assign_t.mk (some (scalar_ref "b")) (some (literal v)))

/-- The node for `if(a) b=1; else b=2;`. -/
def if_with_else : stmt_if_t :=
  stmt_if_t.mk (some (expr.l_val_t (scalar_ref "a"))) (some (assign_b 1)) (some (assign_b 2))

/-- The node for `if(a) b=1;`: the third constructor argument is the null pointer. -/
def if_without_else : stmt_if_t :=
  stmt_if_t.mk (some (expr.l_val_t (scalar_ref "a"))) (some (assign_b 1)) none

/-- The node `a && b`. -/
def a_and_b : binary_expr :=
  binary_expr.mk (operator_t.mk operator_t.Type_.LOGICAL_AND)
    (some (expr.l_val_t (scalar_ref "a"))) (some (expr.l_val_t (scalar_ref "b")))

/-- The node `(a && b) + 1`. -/
def a_and_b_plus_1 : binary_expr :=
  binary_expr.mk (operator_t.mk operator_t.Type_.PLUS)
    (some (expr.binary_expr a_and_b)) (some (literal 1))

/-- The statement `x = (a && b) + 1;`. -/
def assign_logical_in_arithmetic : stmt_assign_t :=
  stmt_assign_t.mk (some (scalar_ref "x")) (some (expr.binary_expr a_and_b_plus_1))

/-! ## Ownership edges lead to strictly smaller nodes -/

/-- The node behind a non-null pointer is smaller than the pointer. -/
theorem shared_ptr_targets_sizeOf_lt {T : Type} [SizeOf T] (p : shared_ptr T) (t : T)
    (h : t ∈ shared_ptr.targets p) : sizeOf t < sizeOf p := by
  cases p with
  | none => simp [shared_ptr.targets] at h
  | some u =>
      simp [shared_ptr.targets] at h
      subst h
      simp

/-- The node behind a non-null entry of a pointer list is smaller than the list. -/
theorem ptr_list_of_targets_sizeOf_lt {T : Type} [SizeOf T] (l : ptr_list_of T) (t : T)
    (h : t ∈ ptr_list_of.targets l) : sizeOf t < sizeOf l := by
  induction l with
  | nil => simp [ptr_list_of.targets] at h
  | cons p ps ih =>
      simp only [ptr_list_of.targets, List.mem_append] at h
      rcases h with h | h
      · have := shared_ptr_targets_sizeOf_lt p t h
        simp only [List.cons.sizeOf_spec]
        omega
      · have := ih h
        simp only [List.cons.sizeOf_spec]
        omega

/-- An expression node is larger than each node it owns. -/
theorem expr_owned_sizeOf_lt (n : expr) (c : construct) (h : c ∈ n.owned) :
    sizeOf c < sizeOf (construct.expr n) := by
  rcases n with _ | ⟨⟨s⟩⟩ | ⟨⟨s⟩⟩ | ⟨⟨op, s1, s2⟩⟩ | ⟨⟨i, es⟩⟩ | n | ⟨⟨i, ps⟩⟩
  all_goals
    simp only [expr.owned, logical_not_expr.src, negative_expr.src, binary_expr.src1,
      binary_expr.src2, l_val_t.exps, func_call_t.params, List.mem_map, List.mem_append,
      List.not_mem_nil] at h
  · obtain ⟨e, he, rfl⟩ := h
    have := shared_ptr_targets_sizeOf_lt _ _ he
    simp
    omega
  · obtain ⟨e, he, rfl⟩ := h
    have := shared_ptr_targets_sizeOf_lt _ _ he
    simp
    omega
  · rcases h with ⟨e, he, rfl⟩ | ⟨e, he, rfl⟩ <;>
      have := shared_ptr_targets_sizeOf_lt _ _ he <;> simp <;> omega
  · obtain ⟨e, he, rfl⟩ := h
    have := ptr_list_of_targets_sizeOf_lt _ _ he
    simp
    omega
  · obtain ⟨e, he, rfl⟩ := h
    have := shared_ptr_targets_sizeOf_lt _ _ he
    simp
    omega

/-- A constant initialiser is larger than each node it owns. -/
theorem const_init_val_t_owned_sizeOf_lt (n : const_init_val_t) (c : construct)
    (h : c ∈ n.owned) : sizeOf c < sizeOf (construct.const_init_val_t n) := by
  rcases n with _ | ⟨⟨s⟩⟩ | ⟨⟨l⟩⟩
  all_goals
    simp only [const_init_val_t.owned, const_init_val_array_t.array_elements, List.mem_map,
      List.not_mem_nil] at h
  · obtain ⟨e, he, rfl⟩ := h
    have := shared_ptr_targets_sizeOf_lt _ _ he
    simp
    omega
  · obtain ⟨e, he, rfl⟩ := h
    have := ptr_list_of_targets_sizeOf_lt _ _ he
    simp
    omega

/-- An initialiser is larger than each node it owns. -/
theorem init_val_t_owned_sizeOf_lt (n : init_val_t) (c : construct)
    (h : c ∈ n.owned) : sizeOf c < sizeOf (construct.init_val_t n) := by
  rcases n with _ | ⟨⟨s⟩⟩ | ⟨⟨l⟩⟩
  all_goals
    simp only [init_val_t.owned, init_val_array_t.array_elements, List.mem_map,
      List.not_mem_nil] at h
  · obtain ⟨e, he, rfl⟩ := h
    have := shared_ptr_targets_sizeOf_lt _ _ he
    simp
    omega
  · obtain ⟨e, he, rfl⟩ := h
    have := ptr_list_of_targets_sizeOf_lt _ _ he
    simp
    omega

/-- A variable definition is larger than each node it owns. -/
theorem var_def_t_owned_sizeOf_lt (n : var_def_t) (c : construct)
    (h : c ∈ n.owned) : sizeOf c < sizeOf (construct.var_def_t n) := by
  rcases n with _ | ⟨⟨i, l⟩⟩ | ⟨⟨i, l, v⟩⟩
  all_goals
    simp only [var_def_t.owned, List.mem_map, List.mem_append, List.not_mem_nil] at h
  · obtain ⟨e, he, rfl⟩ := h
    have := ptr_list_of_targets_sizeOf_lt _ _ he
    simp
    omega
  · rcases h with ⟨e, he, rfl⟩ | ⟨e, he, rfl⟩
    · have := ptr_list_of_targets_sizeOf_lt _ _ he
      simp
      omega
    · have := shared_ptr_targets_sizeOf_lt _ _ he
      simp
      omega

/-- A declaration is larger than each node it owns. -/
theorem decl_t_owned_sizeOf_lt (n : decl_t) (c : construct)
    (h : c ∈ n.owned) : sizeOf c < sizeOf (construct.decl_t n) := by
  rcases n with _ | ⟨⟨p⟩⟩ | ⟨⟨p⟩⟩
  all_goals
    simp only [decl_t.owned, List.mem_map, List.not_mem_nil] at h
  all_goals
    obtain ⟨e, he, rfl⟩ := h
    have := shared_ptr_targets_sizeOf_lt _ _ he
    simp
    omega

/-- A statement is larger than each node it owns. -/
theorem stmt_t_owned_sizeOf_lt (n : stmt_t) (c : construct)
    (h : c ∈ n.owned) : sizeOf c < sizeOf (construct.stmt_t n) := by
  rcases n with _ | ⟨⟨v, e⟩⟩ | ⟨⟨e⟩⟩ | ⟨⟨b⟩⟩ | ⟨⟨k, t, f⟩⟩ | ⟨⟨k, s⟩⟩ | n | n | ⟨⟨e⟩⟩
  all_goals
    simp only [stmt_t.owned, stmt_block_t.block, stmt_if_t.cond, stmt_if_t.stmt_if_true,
      stmt_if_t.stmt_if_false, stmt_while_t.cond, stmt_while_t.stmt, List.mem_map,
      List.mem_append, List.not_mem_nil] at h
  · rcases h with ⟨e, he, rfl⟩ | ⟨e, he, rfl⟩ <;>
      have := shared_ptr_targets_sizeOf_lt _ _ he <;> simp <;> omega
  · obtain ⟨e, he, rfl⟩ := h
    have := shared_ptr_targets_sizeOf_lt _ _ he
    simp
    omega
  · obtain ⟨e, he, rfl⟩ := h
    have := shared_ptr_targets_sizeOf_lt _ _ he
    simp
    omega
  · rcases h with (⟨e, he, rfl⟩ | ⟨e, he, rfl⟩) | ⟨e, he, rfl⟩ <;>
      have := shared_ptr_targets_sizeOf_lt _ _ he <;> simp <;> omega
  · rcases h with ⟨e, he, rfl⟩ | ⟨e, he, rfl⟩ <;>
      have := shared_ptr_targets_sizeOf_lt _ _ he <;> simp <;> omega
  · obtain ⟨e, he, rfl⟩ := h
    have := shared_ptr_targets_sizeOf_lt _ _ he
    simp
    omega

/-- A block item is larger than each node it owns. -/
theorem block_item_t_owned_sizeOf_lt (n : block_item_t) (c : construct)
    (h : c ∈ n.owned) : sizeOf c < sizeOf (construct.block_item_t n) := by
  rcases n with _ | ⟨⟨p⟩⟩ | ⟨⟨p⟩⟩
  all_goals
    simp only [block_item_t.owned, block_item_stmt_t.stmt, List.mem_map,
      List.not_mem_nil] at h
  all_goals
    obtain ⟨e, he, rfl⟩ := h
    have := shared_ptr_targets_sizeOf_lt _ _ he
    simp
    omega

/-- A top-level item is larger than each node it owns. -/
theorem comp_unit_item_t_owned_sizeOf_lt (n : comp_unit_item_t) (c : construct)
    (h : c ∈ n.owned) : sizeOf c < sizeOf (construct.comp_unit_item_t n) := by
  rcases n with _ | ⟨⟨p⟩⟩ | ⟨⟨p⟩⟩
  all_goals
    simp only [comp_unit_item_t.owned, List.mem_map, List.not_mem_nil] at h
  all_goals
    obtain ⟨e, he, rfl⟩ := h
    have := shared_ptr_targets_sizeOf_lt _ _ he
    simp
    omega

/-- Every ownership edge leads from a node to a strictly smaller node. -/
theorem construct_owned_sizeOf_lt (n c : construct) (h : c ∈ n.owned) :
    sizeOf c < sizeOf n := by
  rcases n with _ | n | ⟨⟨l⟩⟩ | n | n | ⟨⟨b, l⟩⟩ | ⟨⟨i, l, v⟩⟩ | n | ⟨⟨b, l⟩⟩ | n | n |
    ⟨⟨t, i, p, b⟩⟩ | ⟨⟨l⟩⟩ | ⟨⟨b, i, l⟩⟩ | ⟨⟨l⟩⟩ | n | n | n | ⟨⟨l⟩⟩
  all_goals
    simp only [construct.owned, block_t.children, func_r_params_t.exps, List.mem_map,
      List.mem_append, List.not_mem_nil] at h
  · obtain ⟨e, he, rfl⟩ := h
    have := ptr_list_of_targets_sizeOf_lt _ _ he
    simp
    omega
  · exact comp_unit_item_t_owned_sizeOf_lt n c h
  · exact decl_t_owned_sizeOf_lt n c h
  · rcases h with ⟨e, he, rfl⟩ | ⟨e, he, rfl⟩
    · have := shared_ptr_targets_sizeOf_lt _ _ he
      simp
      omega
    · have := ptr_list_of_targets_sizeOf_lt _ _ he
      simp
      omega
  · rcases h with ⟨e, he, rfl⟩ | ⟨e, he, rfl⟩
    · have := ptr_list_of_targets_sizeOf_lt _ _ he
      simp
      omega
    · have := shared_ptr_targets_sizeOf_lt _ _ he
      simp
      omega
  · exact const_init_val_t_owned_sizeOf_lt n c h
  · rcases h with ⟨e, he, rfl⟩ | ⟨e, he, rfl⟩
    · have := shared_ptr_targets_sizeOf_lt _ _ he
      simp
      omega
    · have := ptr_list_of_targets_sizeOf_lt _ _ he
      simp
      omega
  · exact var_def_t_owned_sizeOf_lt n c h
  · exact init_val_t_owned_sizeOf_lt n c h
  · rcases h with (⟨e, he, rfl⟩ | ⟨e, he, rfl⟩) | ⟨e, he, rfl⟩ <;>
      have := shared_ptr_targets_sizeOf_lt _ _ he <;> simp <;> omega
  · obtain ⟨e, he, rfl⟩ := h
    have := ptr_list_of_targets_sizeOf_lt _ _ he
    simp
    omega
  · rcases h with ⟨e, he, rfl⟩ | ⟨e, he, rfl⟩
    · have := shared_ptr_targets_sizeOf_lt _ _ he
      simp
      omega
    · have := ptr_list_of_targets_sizeOf_lt _ _ he
      simp
      omega
  · obtain ⟨e, he, rfl⟩ := h
    have := ptr_list_of_targets_sizeOf_lt _ _ he
    simp
    omega
  · exact block_item_t_owned_sizeOf_lt n c h
  · exact stmt_t_owned_sizeOf_lt n c h
  · exact expr_owned_sizeOf_lt n c h
  · obtain ⟨e, he, rfl⟩ := h
    have := ptr_list_of_targets_sizeOf_lt _ _ he
    simp
    omega

/-- A node reachable along ownership edges is strictly smaller than the start. -/
theorem reachable_sizeOf_lt {a b : construct} (h : reachable a b) : sizeOf b < sizeOf a := by
  induction h with
  | single h => exact construct_owned_sizeOf_lt _ _ h
  | tail _ h ih => exact Nat.lt_trans (construct_owned_sizeOf_lt _ _ h) ih

/-! ## Integer literals -/

/-- A converted integer lies in the range of `int32_t`. -/
theorem int32_t_range (n : Int) : -2147483648 ≤ int32_t n ∧ int32_t n ≤ 2147483647 := by
  unfold int32_t
  omega

/-- Conversion to `int32_t` keeps the residue modulo `2^32`. -/
theorem int32_t_emod (n : Int) : int32_t n % 4294967296 = n % 4294967296 := by
  unfold int32_t
  omega

/-- Conversion to `int32_t` leaves an integer of the range unchanged. -/
theorem int32_t_of_range (n : Int) (hlo : -2147483648 ≤ n) (hhi : n ≤ 2147483647) :
    int32_t n = n := by
  unfold int32_t
  omega

/-- Converting twice is converting once. -/
theorem int32_t_idem (n : Int) : int32_t (int32_t n) = int32_t n :=
  int32_t_of_range _ (int32_t_range n).1 (int32_t_range n).2

/-! ## The properties of the specification -/

/-- C1 (structural fidelity).  The tree assembled for `int main(){return 0;}` reads
back as: one item in the compilation unit; the item is a function definition; its return
type is `INT`; its identifier is "main"; its parameter list has length 0; its body has
exactly one item, a statement, which is a return whose expression is present and is an
integer literal of value 0.  And every constructor's fields read back the arguments the
constructor was given. -/
theorem structural_fidelity :
    (main_comp_unit.children.length = 1 ∧
      ∃ (item : comp_unit_item_func_def_t) (f : func_def_t) (ps : func_f_params_t)
        (body : block_t) (s : block_item_stmt_t) (r : stmt_return_t) (lit : number_literal_t),
        main_comp_unit.children = [some (comp_unit_item_t.comp_unit_item_func_def_t item)] ∧
        item.func_def = some f ∧
        f.func_type = some (b_type_t.mk b_type_t.Type_.INT) ∧
        f.ident = "main" ∧
        f.params = some ps ∧ ps.params.length = 0 ∧
        f.block = some body ∧ body.children.length = 1 ∧
        body.children = [some (block_item_t.block_item_stmt_t s)] ∧
        s.stmt = some (stmt_t.stmt_return_t r) ∧
        r.exp = some (expr.number_literal_t lit) ∧
        lit.value = 0) ∧
    (∀ t, (b_type_t.mk t).type = t) ∧
    (∀ s, (ident_t.mk s).name = s) ∧
    (∀ t, (operator_t.mk t).type = t) ∧
    (∀ p, (comp_unit_item_decl_t.mk p).decl = p) ∧
    (∀ p, (comp_unit_item_func_def_t.mk p).func_def = p) ∧
    (∀ p, (decl_const_decl_t.mk p).const_decl = p) ∧
    (∀ p, (decl_var_decl_t.mk p).var_decl = p) ∧
    (∀ b l, (const_decl_t.mk b l).b_type = b ∧ (const_decl_t.mk b l).const_defs = l) ∧
    (∀ i l v, (const_def_t.mk i l v).ident = i ∧ (const_def_t.mk i l v).array_dims = l ∧
      (const_def_t.mk i l v).const_init_val = v) ∧
    (∀ p, (const_init_val_scalar_t.mk p).const_exp = p) ∧
    (∀ l, (const_init_val_array_t.mk l).array_elements = l) ∧
    (∀ b l, (var_decl_t.mk b l).b_type = b ∧ (var_decl_t.mk b l).var_defs = l) ∧
    (∀ i l, (var_def_only_t.mk i l).ident = i ∧ (var_def_only_t.mk i l).array_dims = l) ∧
    (∀ i l v, (var_def_init_t.mk i l v).ident = i ∧ (var_def_init_t.mk i l v).array_dims = l ∧
      (var_def_init_t.mk i l v).init_val = v) ∧
    (∀ p, (init_val_scalar_t.mk p).exp = p) ∧
    (∀ l, (init_val_array_t.mk l).array_elements = l) ∧
    (∀ l, (func_f_params_t.mk l).params = l) ∧
    (∀ l, (block_t.mk l).children = l) ∧
    (∀ p, (block_item_decl_t.mk p).decl = p) ∧
    (∀ p, (block_item_stmt_t.mk p).stmt = p) ∧
    (∀ v e, (stmt_assign_t.mk v e).l_val = v ∧ (stmt_assign_t.mk v e).exp = e) ∧
    (∀ e, (stmt_exp_t.mk e).exp = e) ∧
    (∀ b, (stmt_block_t.mk b).block = b) ∧
    (∀ c t e, (stmt_if_t.mk c t e).cond = c ∧ (stmt_if_t.mk c t e).stmt_if_true = t ∧
      (stmt_if_t.mk c t e).stmt_if_false = e) ∧
    (∀ c s, (stmt_while_t.mk c s).cond = c ∧ (stmt_while_t.mk c s).stmt = s) ∧
    (∀ e, (stmt_return_t.mk e).exp = e) ∧
    (∀ e, (logical_not_expr.mk e).src = e) ∧
    (∀ e, (negative_expr.mk e).src = e) ∧
    (∀ o a b, (binary_expr.mk o a b).op = o ∧ (binary_expr.mk o a b).src1 = a ∧
      (binary_expr.mk o a b).src2 = b) ∧
    (∀ i l, (l_val_t.mk i l).ident = i ∧ (l_val_t.mk i l).exps = l) ∧
    (∀ v, (number_literal_t.ctor (int32_t v)).value = int32_t v) ∧
    (∀ i p, (func_call_t.mk i p).ident = i ∧ (func_call_t.mk i p).params = p) ∧
    (∀ l, (func_r_params_t.mk l).exps = l) := by
  refine ⟨⟨rfl, _, _, _, _, _, _, _, rfl, rfl, rfl, rfl, rfl, rfl, rfl, rfl, rfl, rfl, rfl,
    rfl⟩, ?_⟩
  refine ⟨fun _ => rfl, fun _ => rfl, fun _ => rfl, fun _ => rfl, fun _ => rfl,
    fun _ => rfl, fun _ => rfl, fun _ _ => ⟨rfl, rfl⟩, fun _ _ _ => ⟨rfl, rfl, rfl⟩,
    fun _ => rfl, fun _ => rfl, fun _ _ => ⟨rfl, rfl⟩, fun _ _ => ⟨rfl, rfl⟩,
    fun _ _ _ => ⟨rfl, rfl, rfl⟩, fun _ => rfl, fun _ => rfl, fun _ => rfl, fun _ => rfl,
    fun _ => rfl, fun _ => rfl, fun _ _ => ⟨rfl, rfl⟩, fun _ => rfl, fun _ => rfl,
    fun _ _ _ => ⟨rfl, rfl, rfl⟩, fun _ _ => ⟨rfl, rfl⟩, fun _ => rfl, fun _ => rfl,
    fun _ => rfl, fun _ _ _ => ⟨rfl, rfl, rfl⟩, fun _ _ => ⟨rfl, rfl⟩,
    fun v => int32_t_idem v, fun _ _ => ⟨rfl, rfl⟩, fun _ => rfl⟩

/-- C2 (nested initializer shape).  `const_def_t(ident, dims, init)` reads back the same
identifier, the same dimension list and the same initialiser, and
`const_init_val_array_t(elems)` reads back the same element list, for every argument:
no shape is checked against the dimensions, and two array initialisers are the same
only when their element lists are.  For `const int a[2] = {1,2};` the declaration has
one definition, with identifier "a", the one dimension `2`, and an array initialiser
whose elements are the scalars `1` and `2` in that order; the misshapen
`a[2] = {1, {2, 3}, 4}` reads back as written. -/
theorem nested_initializer_shape :
    (∀ (ident : String) (dims : ptr_list_of expr) (init : shared_ptr const_init_val_t),
      (const_def_t.mk ident dims init).ident = ident ∧
      (const_def_t.mk ident dims init).array_dims = dims ∧
      (const_def_t.mk ident dims init).const_init_val = init) ∧
    (∀ elems : ptr_list_of const_init_val_t,
      (const_init_val_array_t.mk elems).array_elements = elems) ∧
    (∀ elems elems2 : ptr_list_of const_init_val_t,
      const_init_val_t.const_init_val_array_t (const_init_val_array_t.mk elems)
          = const_init_val_t.const_init_val_array_t (const_init_val_array_t.mk elems2) ↔
        elems = elems2) ∧
    (∀ (e : shared_ptr expr) (elems : ptr_list_of const_init_val_t),
      const_init_val_t.const_init_val_scalar_t (const_init_val_scalar_t.mk e)
        ≠ const_init_val_t.const_init_val_array_t (const_init_val_array_t.mk elems)) ∧
    (∃ (d : const_def_t) (arr : const_init_val_array_t),
      array_a_decl.const_defs = [some d] ∧
      d.ident = "a" ∧
      d.array_dims = [some (literal 2)] ∧ d.array_dims.length = 1 ∧
      (number_literal_t.ctor 2).value = 2 ∧
      d.const_init_val = some (const_init_val_t.const_init_val_array_t arr) ∧
      arr.array_elements = [some (scalar_init 1), some (scalar_init 2)] ∧
      scalar_init 1 = const_init_val_t.const_init_val_scalar_t
        (const_init_val_scalar_t.mk (some (expr.number_literal_t (number_literal_t.mk 1)))) ∧
      scalar_init 2 = const_init_val_t.const_init_val_scalar_t
        (const_init_val_scalar_t.mk (some (expr.number_literal_t (number_literal_t.mk 2))))) ∧
    (∃ arr inner : const_init_val_array_t,
      misshapen_def.array_dims.length = 1 ∧
      misshapen_def.const_init_val = some (const_init_val_t.const_init_val_array_t arr) ∧
      arr.array_elements =
        [some (scalar_init 1), some (const_init_val_t.const_init_val_array_t inner),
          some (scalar_init 4)] ∧
      inner.array_elements = [some (scalar_init 2), some (scalar_init 3)]) := by
  refine ⟨fun _ _ _ => ⟨rfl, rfl, rfl⟩, fun _ => rfl, ?_, ?_,
    ⟨_, _, rfl, rfl, rfl, rfl, rfl, rfl, rfl, rfl, rfl⟩, ⟨_, _, rfl, rfl, rfl, rfl⟩⟩
  · intro elems elems2
    constructor
    · intro h
      injection h with h
      injection h
    · intro h
      rw [h]
  · intro e elems h
    injection h

/-- C3 (dangling else is explicit).  For every condition `c` and statements `t`, `e`,
`stmt_if_t(c, t, e)` has its false branch present and equal to `e`, and
`stmt_if_t(c, t, nullptr)` has it absent; the absent marker differs from a pointer to
any statement node, so a node without else never equals a node with one, whatever the
other fields.  The nodes for `if(a) b=1; else b=2;` and `if(a) b=1;` are instances. -/
theorem dangling_else_explicit :
    (∀ (c : shared_ptr expr) (t : shared_ptr stmt_t) (e : stmt_t),
      (stmt_if_t.mk c t (some e)).stmt_if_false = some e ∧
      (stmt_if_t.mk c t none).stmt_if_false = none ∧
      (stmt_if_t.mk c t (some e)).cond = c ∧ (stmt_if_t.mk c t none).cond = c ∧
      (stmt_if_t.mk c t (some e)).stmt_if_true = t ∧
      (stmt_if_t.mk c t none).stmt_if_true = t) ∧
    (∀ s : stmt_t, (none : shared_ptr stmt_t) ≠ some s) ∧
    (∀ (c c2 : shared_ptr expr) (t t2 : shared_ptr stmt_t) (e : stmt_t),
      stmt_if_t.mk c t none ≠ stmt_if_t.mk c2 t2 (some e) ∧
      stmt_t.stmt_if_t (stmt_if_t.mk c t none)
        ≠ stmt_t.stmt_if_t (stmt_if_t.mk c2 t2 (some e))) ∧
    if_with_else.stmt_if_false = some (assign_b 2) ∧
    if_without_else.stmt_if_false = none ∧
    if_with_else.stmt_if_true = if_without_else.stmt_if_true ∧
    if_with_else.cond = if_without_else.cond ∧
    if_with_else ≠ if_without_else := by
  refine ⟨fun _ _ _ => ⟨rfl, rfl, rfl, rfl, rfl, rfl⟩, fun _ h => Option.noConfusion h,
    fun _ _ _ _ _ => ⟨?_, ?_⟩, rfl, rfl, rfl, rfl, ?_⟩
  · intro h
    injection h with _ _ h
    exact Option.noConfusion h
  · intro h
    injection h with h
    injection h with _ _ h
    exact Option.noConfusion h
  · intro h
    have h2 : if_with_else.stmt_if_false = if_without_else.stmt_if_false := by rw [h]
    exact Option.noConfusion h2

/-- C4 (no premature rejection).  For every operator tag, relational and logical tags
included, and every pair of operand pointers, `binary_expr(op, src1, src2)` is a node,
built without any error result, that reads back exactly `op`, `src1` and `src2`; the
operands may be expression nodes of any variant.  The tree of `x = (a && b) + 1;` is
such a tree. -/
theorem no_premature_rejection :
    (∀ (tag : operator_t.Type_) (src1 src2 : shared_ptr expr),
      ∃ n : binary_expr, n = binary_expr.mk (operator_t.mk tag) src1 src2 ∧
        n.op = operator_t.mk tag ∧ n.op.type = tag ∧ n.src1 = src1 ∧ n.src2 = src2) ∧
    (∀ (tag : operator_t.Type_) (e1 e2 : expr),
      (binary_expr.mk (operator_t.mk tag) (some e1) (some e2)).op.type = tag ∧
      (binary_expr.mk (operator_t.mk tag) (some e1) (some e2)).src1 = some e1 ∧
      (binary_expr.mk (operator_t.mk tag) (some e1) (some e2)).src2 = some e2) ∧
    (assign_logical_in_arithmetic.l_val = some (l_val_t.mk "x" []) ∧
      assign_logical_in_arithmetic.exp = some (expr.binary_expr a_and_b_plus_1) ∧
      a_and_b_plus_1.op.type = operator_t.Type_.PLUS ∧
      a_and_b_plus_1.src1 = some (expr.binary_expr a_and_b) ∧
      a_and_b_plus_1.src2 = some (expr.number_literal_t (number_literal_t.mk 1)) ∧
      a_and_b.op.type = operator_t.Type_.LOGICAL_AND ∧
      a_and_b.src1 = some (expr.l_val_t (l_val_t.mk "a" [])) ∧
      a_and_b.src2 = some (expr.l_val_t (l_val_t.mk "b" []))) :=
  ⟨fun _ _ _ => ⟨_, rfl, rfl, rfl, rfl, rfl⟩, fun _ _ _ => ⟨rfl, rfl, rfl⟩,
    rfl, rfl, rfl, rfl, rfl, rfl, rfl, rfl⟩

/-- C5 (literal round trip).  For every 32-bit signed integer `v`,
`number_literal_t(v).value` is `v`; and for every integer `n` given to the constructor
the stored value is the 32-bit signed integer congruent to `n` modulo `2^32`, the
two's-complement wraparound: no integer is rejected. -/
theorem literal_round_trip (v n : Int) (hlo : -2147483648 ≤ v) (hhi : v ≤ 2147483647) :
    (number_literal_t.ctor v).value = v ∧
    -2147483648 ≤ (number_literal_t.ctor n).value ∧
    (number_literal_t.ctor n).value ≤ 2147483647 ∧
    (number_literal_t.ctor n).value % 4294967296 = n % 4294967296 :=
  ⟨int32_t_of_range v hlo hhi, (int32_t_range n).1, (int32_t_range n).2, int32_t_emod n⟩

/-- Witness of C5 at the largest and the smallest 32-bit signed integer, with `2^31`
and `-2^31 - 1` as the integers that wrap around. -/
theorem literal_round_trip_witness :
    ((number_literal_t.ctor 2147483647).value = 2147483647 ∧
      -2147483648 ≤ (number_literal_t.ctor 2147483648).value ∧
      (number_literal_t.ctor 2147483648).value ≤ 2147483647 ∧
      (number_literal_t.ctor 2147483648).value % 4294967296 = 2147483648 % 4294967296) ∧
    ((number_literal_t.ctor (-2147483648)).value = -2147483648 ∧
      -2147483648 ≤ (number_literal_t.ctor (-2147483649)).value ∧
      (number_literal_t.ctor (-2147483649)).value ≤ 2147483647 ∧
      (number_literal_t.ctor (-2147483649)).value % 4294967296
        = -2147483649 % 4294967296) ∧
    (number_literal_t.ctor 2147483648).value = -2147483648 ∧
    (number_literal_t.ctor (-2147483649)).value = 2147483647 ∧
    (number_literal_t.ctor 4294967296).value = 0 :=
  ⟨literal_round_trip 2147483647 2147483648 (by decide) (by decide),
    literal_round_trip (-2147483648) (-2147483649) (by decide) (by decide),
    by decide, by decide, by decide⟩

/-- C6 (acyclicity).  No node is reachable from itself along one or more ownership
edges: every ownership edge leads to a strictly smaller node.  A node's children are
the nodes it was built from, and the same subtree may be attached in several places:
a binary expression built with `s` as both operands owns `s` twice. -/
theorem acyclicity :
    (∀ n : construct, ¬ reachable n n) ∧
    (∀ (op : operator_t) (s : expr),
      (construct.expr (expr.binary_expr (binary_expr.mk op (some s) (some s)))).owned
          = [construct.expr s, construct.expr s] ∧
      reachable (construct.expr (expr.binary_expr (binary_expr.mk op (some s) (some s))))
        (construct.expr s)) :=
  ⟨fun _ h => Nat.lt_irrefl _ (reachable_sizeOf_lt h),
    fun _ _ => ⟨rfl, Relation.TransGen.single (List.mem_cons_self _ _)⟩⟩

/-- C7 (order preservation).  A compilation unit whose `children` has been given a
sequence of items reads back the same sequence: the same length and the same item at
every position, repeated items included; and `block_t(items).children` is `items`,
element by element. -/
theorem order_preservation :
    (∀ (u : comp_unit_t) (items : ptr_list_of comp_unit_item_t),
      ({ u with children := items } : comp_unit_t).children = items ∧
      ({ u with children := items } : comp_unit_t).children.length = items.length ∧
      ∀ i : Nat, ({ u with children := items } : comp_unit_t).children.get? i = items.get? i) ∧
    (∀ items : ptr_list_of block_item_t,
      (block_t.mk items).children = items ∧
      (block_t.mk items).children.length = items.length ∧
      ∀ i : Nat, (block_t.mk items).children.get? i = items.get? i) ∧
    (∀ (d : shared_ptr decl_t) (f : shared_ptr func_def_t),
      ({ comp_unit_t.default_ctor with
          children :=
            [some (comp_unit_item_t.comp_unit_item_decl_t (comp_unit_item_decl_t.mk d)),
              some (comp_unit_item_t.comp_unit_item_func_def_t
                (comp_unit_item_func_def_t.mk f)),
              some (comp_unit_item_t.comp_unit_item_decl_t (comp_unit_item_decl_t.mk d))] }
        : comp_unit_t).children
        = [some (comp_unit_item_t.comp_unit_item_decl_t (comp_unit_item_decl_t.mk d)),
            some (comp_unit_item_t.comp_unit_item_func_def_t (comp_unit_item_func_def_t.mk f)),
            some (comp_unit_item_t.comp_unit_item_decl_t (comp_unit_item_decl_t.mk d))]) :=
  ⟨fun _ _ => ⟨rfl, rfl, fun _ => rfl⟩, fun _ => ⟨rfl, rfl, fun _ => rfl⟩, fun _ _ => rfl⟩

/-- C8, as stated, fails: the function definition made by the only constructor of
`func_def_t` has a null `block`, so not every `func_def_t` has a body. -/
theorem func_def_body_null_after_construction :
    func_def_t.default_ctor.block = none ∧
    ¬ ∀ f : func_def_t, ∃ b : block_t, f.block = some b :=
  ⟨rfl, fun h => (h func_def_t.default_ctor).elim fun _ hb => Option.noConfusion hb⟩

/-- C8, amended.  The constructor of `func_def_t` leaves `block` null; once a `block_t`
has been assigned to `block`, the field is non-null and refers to that block, and the
other fields keep their values. -/
theorem func_def_body_after_assignment (f : func_def_t) (b : block_t) :
    func_def_t.default_ctor.block = none ∧
    ({ f with block := some b } : func_def_t).block = some b ∧
    ({ f with block := some b } : func_def_t).block ≠ none ∧
    ({ f with block := some b } : func_def_t).func_type = f.func_type ∧
    ({ f with block := some b } : func_def_t).ident = f.ident ∧
    ({ f with block := some b } : func_def_t).params = f.params :=
  ⟨rfl, rfl, fun h => Option.noConfusion h, rfl, rfl, rfl⟩

/-- C9, as stated, fails: `const_decl_t()` holds no base type and no definition, and
`const_decl_t(b_type, {})` holds no definition either. -/
theorem const_decl_may_be_empty :
    const_decl_t.default_ctor.b_type = none ∧
    const_decl_t.default_ctor.const_defs.length = 0 ∧
    (const_decl_t.mk (some (b_type_t.mk b_type_t.Type_.INT)) []).const_defs.length = 0 ∧
    ¬ ∀ d : const_decl_t, (∃ b : b_type_t, d.b_type = some b) ∧ 1 ≤ d.const_defs.length :=
  ⟨rfl, rfl, rfl, fun h => absurd (h const_decl_t.default_ctor).2 (by decide)⟩

/-- C9, amended.  `const_decl_t(b_type, const_defs)` holds the base-type pointer and the
sequence of definitions it was given, so the sequence it holds has length at least 1
exactly when the given sequence is not empty; `const_decl_t()` holds a null base type
and the empty sequence. -/
theorem const_decl_holds_what_it_was_given (b : shared_ptr b_type_t)
    (defs : ptr_list_of const_def_t) :
    (const_decl_t.mk b defs).b_type = b ∧
    (const_decl_t.mk b defs).const_defs = defs ∧
    (const_decl_t.mk b defs).const_defs.length = defs.length ∧
    (1 ≤ (const_decl_t.mk b defs).const_defs.length ↔ defs ≠ []) ∧
    const_decl_t.default_ctor.b_type = none ∧
    const_decl_t.default_ctor.const_defs = [] :=
  ⟨rfl, rfl, rfl, by cases defs <;> simp, rfl, rfl⟩
